import Mathlib

/-!
Verification development for the cutting-guard contact-event detector
(`cutting_utils.py`, class `CuttingGuard`).

The detector watches a contact feed: each tick it receives the kinematic
state vector and a list of pairwise contact records, classifies the records
that involve the blade body, transforms force and application point into the
blade's local frame, and reports one event per qualifying contact.  The
element-id-to-body-index registry is built once at construction from the
rigid-body tree.

Vectors are rational triples; element ids and body indices are naturals.
The Python `if cut_body_index:` truthiness test (None and 0 both falsy) is
embedded explicitly.  The kinematics call (`doKinematics` followed by
`relativeTransform`) is an external physics-engine capability and enters as
a function parameter from the position slice of the state vector to a rigid
transform.
-/

namespace CuttingUtils

/-- A 3-vector with rational components. -/
structure Vec3 where
  x : ℚ
  y : ℚ
  z : ℚ
deriving DecidableEq, Repr

/-- Componentwise negation, as performed on the numpy force vector. -/
def Vec3.neg (v : Vec3) : Vec3 := ⟨-v.x, -v.y, -v.z⟩

/-- Componentwise addition. -/
def Vec3.add (a b : Vec3) : Vec3 := ⟨a.x + b.x, a.y + b.y, a.z + b.z⟩

/-- A 3x3 matrix (the rotation block `tf[0:3, 0:3]` of a transform). -/
structure Mat3 where
  a00 : ℚ
  a01 : ℚ
  a02 : ℚ
  a10 : ℚ
  a11 : ℚ
  a12 : ℚ
  a20 : ℚ
  a21 : ℚ
  a22 : ℚ
deriving DecidableEq, Repr

/-- Matrix-vector product, `M.dot(v)` in the source. -/
def Mat3.mulVec (m : Mat3) (v : Vec3) : Vec3 :=
  ⟨m.a00 * v.x + m.a01 * v.y + m.a02 * v.z,
   m.a10 * v.x + m.a11 * v.y + m.a12 * v.z,
   m.a20 * v.x + m.a21 * v.y + m.a22 * v.z⟩

/-- The identity rotation. -/
def Mat3.id : Mat3 := ⟨1, 0, 0, 0, 1, 0, 0, 0, 1⟩

/-- A rigid transform: rotation block `tf[0:3,0:3]` and translation
column `tf[0:3,3]`. -/
structure RigidTransform where
  rot : Mat3
  trans : Vec3
deriving DecidableEq, Repr

/-- One pairwise contact observation from the contact-results feed:
the two colliding geometry element ids, the resultant force and its
application point (both world frame). -/
structure ContactRecord where
  element1 : Nat
  element2 : Nat
  force : Vec3
  point : Vec3
deriving DecidableEq, Repr

/-- Swap the two elements of a record, keeping force and point. -/
def ContactRecord.swap (r : ContactRecord) : ContactRecord :=
  ⟨r.element2, r.element1, r.force, r.point⟩

/-- The observation reported for one qualifying blade contact: the struck
body's index (resolved through the registry) and the force and application
point expressed in blade-local frame.  In the source these are the values
printed by `_DoPublish`. -/
structure CutEvent where
  struck_body : Nat
  force : Vec3
  point : Vec3
deriving DecidableEq, Repr

/-- Failure raised when a contact element id is absent from the registry
(`KeyError` from `self.collision_id_to_body_index_map[cut_body_index]`). -/
inductive TickError where
  | UnknownElement (elementId : Nat) : TickError
deriving DecidableEq, Repr

instance {ε α : Type} [DecidableEq ε] [DecidableEq α] : DecidableEq (Except ε α)
  | .ok a, .ok b =>
    if h : a = b then .isTrue (congrArg Except.ok h)
    else .isFalse fun hh => h (Except.ok.inj hh)
  | .error e, .error f =>
    if h : e = f then .isTrue (congrArg Except.error h)
    else .isFalse fun hh => h (Except.error.inj hh)
  | .ok _, .error _ => .isFalse fun hh => Except.noConfusion hh
  | .error _, .ok _ => .isFalse fun hh => Except.noConfusion hh

/-- Insertion into a Python dict modelled as a function to `Option`:
the inserted key now maps to the value, later insertions overwrite. -/
def dictInsert (m : Nat → Option Nat) (key val : Nat) : Nat → Option Nat :=
  fun i => if i = key then some val else m i

/-- The rigid-body tree data the guard's constructor consults:
for each body index, its list of collision element ids, plus the sizes of
the position and velocity slices of the state vector. -/
structure RigidBodyTreeModel where
  bodies : List (List Nat)
  num_positions : Nat
  num_velocities : Nat

/-- The element-to-body registry built in `__init__`:
`for k in range(num_bodies): for i in body k's ids: map[i] = k`. -/
def buildCollisionIdMap (bodies : List (List Nat)) : Nat → Option Nat :=
  (List.range bodies.length).foldl
    (fun m k => (bodies.getD k []).foldl (fun m i => dictInsert m i k) m)
    (fun _ => none)

/-- The detector's configuration, fixed at construction. -/
structure CuttingGuard where
  collision_id_to_body_index_map : Nat → Option Nat
  cutting_body_index : Nat
  cutting_body_ids : List Nat
  cut_direction : Vec3
  min_cut_force : ℚ
  blade_start_pt : Vec3
  blade_stop_pt : Vec3
  blade_width : ℚ
  num_positions : Nat

/-- `CuttingGuard.__init__`: builds the registry over all bodies, records
the blade body's own element ids, and stores the blade configuration. -/
def mkCuttingGuard (rbt : RigidBodyTreeModel) (cutting_body_index : Nat)
    (blade_start_pt blade_stop_pt cut_direction : Vec3)
    (min_cut_force blade_width : ℚ) : CuttingGuard :=
  { collision_id_to_body_index_map := buildCollisionIdMap rbt.bodies
    cutting_body_index := cutting_body_index
    cutting_body_ids := rbt.bodies.getD cutting_body_index []
    cut_direction := cut_direction
    min_cut_force := min_cut_force
    blade_start_pt := blade_start_pt
    blade_stop_pt := blade_stop_pt
    blade_width := blade_width
    num_positions := rbt.num_positions }

/-- The branch at lines 61-66 of `_DoPublish`: if the first element is a
blade element, the struck candidate is the second element and the force is
taken as given; otherwise, if the second element is a blade element, the
struck candidate is the first element and the force is negated; otherwise
`cut_body_index` stays `None`. -/
def classifyRecord (g : CuttingGuard) (r : ContactRecord) : Option (Nat × Vec3) :=
  if r.element1 ∈ g.cutting_body_ids then some (r.element2, r.force)
  else if r.element2 ∈ g.cutting_body_ids then some (r.element1, r.force.neg)
  else none

/-- The loop body of `_DoPublish` for one contact record.  After
classification, Python's `if cut_body_index:` admits only a non-`None`,
nonzero id; the force and point are then mapped into blade frame with the
transform obtained from the kinematics of the position slice, and the
struck element id is resolved through the registry — a missing key raises
`UnknownElement`. -/
def processRecord (g : CuttingGuard) (relativeTransform : List ℚ → RigidTransform)
    (x : List ℚ) (r : ContactRecord) : Except TickError (Option CutEvent) :=
  match classifyRecord g r with
  | none => .ok none
  | some (cut_body_index, cut_force) =>
    if cut_body_index ≠ 0 then
      let tf := relativeTransform (x.take g.num_positions)
      let body_force := tf.rot.mulVec cut_force
      let body_cut_pt := (tf.rot.mulVec r.point).add tf.trans
      match g.collision_id_to_body_index_map cut_body_index with
      | some b => .ok (some ⟨b, body_force, body_cut_pt⟩)
      | none => .error (.UnknownElement cut_body_index)
    else .ok none

/-- Processing the record list in order, collecting the emitted events;
a registry failure aborts the remainder of the tick. -/
def processRecords (g : CuttingGuard) (relativeTransform : List ℚ → RigidTransform)
    (x : List ℚ) : List ContactRecord → Except TickError (List CutEvent)
  | [] => .ok []
  | r :: rest =>
    match processRecord g relativeTransform x r with
    | .error e => .error e
    | .ok none => processRecords g relativeTransform x rest
    | .ok (some ev) =>
      match processRecords g relativeTransform x rest with
      | .error e => .error e
      | .ok evs => .ok (ev :: evs)

/-- One tick of the detector (`_DoPublish`): read the state vector and the
contact results, and report the qualifying blade contacts. -/
def processTick (g : CuttingGuard) (relativeTransform : List ℚ → RigidTransform)
    (x : List ℚ) (records : List ContactRecord) : Except TickError (List CutEvent) :=
  processRecords g relativeTransform x records

/-- The publish callback including its effect on the detector itself:
`_DoPublish` assigns to no field of `self`, so the detector after the call
is the detector before it. -/
def DoPublish (g : CuttingGuard) (relativeTransform : List ℚ → RigidTransform)
    (x : List ℚ) (records : List ContactRecord) :
    Except TickError (List CutEvent) × CuttingGuard :=
  (processTick g relativeTransform x records, g)

/-- The id of the non-blade element of a record, when the first element is
the blade one take the second, else the first. -/
def otherElement (g : CuttingGuard) (r : ContactRecord) : Nat :=
  if r.element1 ∈ g.cutting_body_ids then r.element2 else r.element1

/-- Exactly one of the record's two elements is a blade element. -/
def oneBladeElement (g : CuttingGuard) (r : ContactRecord) : Prop :=
  (r.element1 ∈ g.cutting_body_ids ∧ r.element2 ∉ g.cutting_body_ids) ∨
  (r.element2 ∈ g.cutting_body_ids ∧ r.element1 ∉ g.cutting_body_ids)

instance (g : CuttingGuard) (r : ContactRecord) : Decidable (oneBladeElement g r) := by
  unfold oneBladeElement; infer_instance

/-! ### Concrete fixtures

The scenario of the specification: body 0 is the blade with elements
10 and 11, body 1 is a block with element 20; the blade transform is the
identity rotation translated by `[0, 0, -0.75]`. -/

/-- Tree with blade body 0 (elements 10, 11) and block body 1 (element 20),
seven positions and seven velocities. -/
def rbtEx : RigidBodyTreeModel := ⟨[[10, 11], [20]], 7, 7⟩

/-- Guard watching body 0 of `rbtEx`. -/
def gEx : CuttingGuard :=
  mkCuttingGuard rbtEx 0 ⟨0, 0, 0⟩ ⟨1, 0, 0⟩ ⟨0, 0, -1⟩ 5 (1/100)

/-- Identity rotation translated by `[0, 0, -3/4]`. -/
def tfEx : RigidTransform := ⟨Mat3.id, ⟨0, 0, -3/4⟩⟩

/-- Transform provider returning `tfEx` for every configuration. -/
def relEx : List ℚ → RigidTransform := fun _ => tfEx

/-- A state vector of seven zero positions and seven zero velocities. -/
def xEx : List ℚ := List.replicate 14 0

/-- Blade element 10 against block element 20, force `[0,0,-50]` applied at
`[0.1, 0, 0.75]` (world frame). -/
def recEx : ContactRecord := ⟨10, 20, ⟨0, 0, -50⟩, ⟨1/10, 0, 3/4⟩⟩

/-- The event expected for `recEx` under `tfEx`. -/
def evEx : CutEvent := ⟨1, ⟨0, 0, -50⟩, ⟨1/10, 0, 0⟩⟩

/-! ### C1: struck body resolved through the registry -/

/-- C1: whenever the detector emits an event for a record with exactly one
blade element, the event's struck-body index is the registry's image of
the other (non-blade) element. -/
theorem struck_body_is_registry_of_other_element (g : CuttingGuard)
    (rel : List ℚ → RigidTransform) (x : List ℚ) (r : ContactRecord)
    (ev : CutEvent)
    (hx : oneBladeElement g r)
    (hemit : processRecord g rel x r = .ok (some ev)) :
    g.collision_id_to_body_index_map (otherElement g r) = some ev.struck_body := by
  rcases hx with ⟨h1, h2⟩ | ⟨h2, h1⟩
  · simp only [processRecord, classifyRecord, if_pos h1] at hemit
    unfold otherElement
    rw [if_pos h1]
    by_cases hz : r.element2 ≠ 0
    · rw [if_pos hz] at hemit
      cases hreg : g.collision_id_to_body_index_map r.element2 with
      | none => rw [hreg] at hemit; exact absurd hemit (by simp)
      | some b =>
        rw [hreg] at hemit
        have h := Option.some.inj (Except.ok.inj hemit)
        rw [← h]
    · rw [if_neg hz] at hemit
      exact absurd hemit (by simp)
  · simp only [processRecord, classifyRecord, if_neg h1, if_pos h2] at hemit
    unfold otherElement
    rw [if_neg h1]
    by_cases hz : r.element1 ≠ 0
    · rw [if_pos hz] at hemit
      cases hreg : g.collision_id_to_body_index_map r.element1 with
      | none => rw [hreg] at hemit; exact absurd hemit (by simp)
      | some b =>
        rw [hreg] at hemit
        have h := Option.some.inj (Except.ok.inj hemit)
        rw [← h]
    · rw [if_neg hz] at hemit
      exact absurd hemit (by simp)

/-- C1 witness: blade element 10 against block element 20 emits an event,
and its struck body is the registry's image of element 20, body 1. -/
theorem struck_body_is_registry_of_other_element_witness :
    gEx.collision_id_to_body_index_map (otherElement gEx recEx) =
      some evEx.struck_body :=
  struck_body_is_registry_of_other_element gEx relEx xEx recEx evEx
    (by decide)
    (by norm_num [processRecord, classifyRecord, gEx, mkCuttingGuard, rbtEx,
      buildCollisionIdMap, dictInsert, relEx, tfEx, Mat3.id, Mat3.mulVec,
      Vec3.add, recEx, evEx, xEx, List.range_succ])

/-! ### C2: blade self-contact

The classification chain tests `element1` first: when both elements are
blade elements, the first branch still fires and the record is processed
with `element2` as the struck element.  Self-contact records are therefore
not skipped. -/

/-- A record whose two elements both belong to the blade of `gEx`. -/
def recSelf : ContactRecord := ⟨10, 11, ⟨0, 0, -50⟩, ⟨1/10, 0, 3/4⟩⟩

/-- C2 counterexample: both elements of `recSelf` are blade elements of
`gEx`, yet the tick emits an event for it (struck body 0, the blade body
itself), so the record is not skipped. -/
theorem self_contact_emits_event :
    (recSelf.element1 ∈ gEx.cutting_body_ids ∧
     recSelf.element2 ∈ gEx.cutting_body_ids) ∧
    processTick gEx relEx xEx [recSelf] =
      .ok [⟨0, ⟨0, 0, -50⟩, ⟨1/10, 0, 0⟩⟩] := by
  constructor
  · exact ⟨by decide, by decide⟩
  · norm_num [processTick, processRecords, processRecord, classifyRecord, gEx,
      mkCuttingGuard, rbtEx, buildCollisionIdMap, dictInsert, relEx, tfEx,
      Mat3.id, Mat3.mulVec, Vec3.add, recSelf, xEx, List.range_succ]

/-- C2 amended: when both elements belong to the blade's element set, the
first branch fires as if only `element1` were the blade: provided
`element2` passes the truthiness guard and resolves in the registry, an
event is emitted whose struck-body index is the registry's image of
`element2` and whose force is the record's force taken as given (not
negated), rotated into blade frame. -/
theorem self_contact_first_branch (g : CuttingGuard)
    (rel : List ℚ → RigidTransform) (x : List ℚ) (r : ContactRecord) (b : Nat)
    (h1 : r.element1 ∈ g.cutting_body_ids)
    (_h2 : r.element2 ∈ g.cutting_body_ids)
    (hz : r.element2 ≠ 0)
    (hreg : g.collision_id_to_body_index_map r.element2 = some b) :
    processRecord g rel x r =
      .ok (some ⟨b, (rel (x.take g.num_positions)).rot.mulVec r.force,
        ((rel (x.take g.num_positions)).rot.mulVec r.point).add
          (rel (x.take g.num_positions)).trans⟩) := by
  simp [processRecord, classifyRecord, h1, hz, hreg]

/-- C2 amended witness: the self-contact record yields the blade body
itself as struck body. -/
theorem self_contact_first_branch_witness :
    processRecord gEx relEx xEx recSelf =
      .ok (some ⟨0, (relEx (xEx.take gEx.num_positions)).rot.mulVec recSelf.force,
        ((relEx (xEx.take gEx.num_positions)).rot.mulVec recSelf.point).add
          (relEx (xEx.take gEx.num_positions)).trans⟩) :=
  self_contact_first_branch gEx relEx xEx recSelf 0
    (by decide) (by decide) (by decide) (by decide)

/-! ### C3: force orientation and the swap law -/

/-- Double negation of a vector is the identity. -/
theorem Vec3.neg_neg (v : Vec3) : v.neg.neg = v := by
  simp [Vec3.neg]

/-- C3: for a record with exactly one blade element, the oriented force is
the record's force as given when the blade element is first and its
negation when the blade element is second; and swapping the two elements
while keeping the force yields the negated oriented force. -/
theorem oriented_force_and_swap_sign (g : CuttingGuard) (r : ContactRecord)
    (hx : oneBladeElement g r) :
    classifyRecord g r =
      some (otherElement g r,
        if r.element1 ∈ g.cutting_body_ids then r.force else r.force.neg) ∧
    (∀ o f, classifyRecord g r = some (o, f) →
      classifyRecord g r.swap = some (o, f.neg)) := by
  rcases hx with ⟨h1, h2⟩ | ⟨h2, h1⟩
  · refine ⟨by simp [classifyRecord, otherElement, h1], ?_⟩
    intro o f hof
    simp only [classifyRecord, if_pos h1] at hof
    obtain ⟨rfl, rfl⟩ : o = r.element2 ∧ f = r.force := by
      cases hof; exact ⟨rfl, rfl⟩
    simp [classifyRecord, ContactRecord.swap, h1, h2]
  · refine ⟨by simp [classifyRecord, otherElement, h1, h2], ?_⟩
    intro o f hof
    simp only [classifyRecord, if_neg h1, if_pos h2] at hof
    obtain ⟨rfl, rfl⟩ : o = r.element1 ∧ f = r.force.neg := by
      cases hof; exact ⟨rfl, rfl⟩
    simp [classifyRecord, ContactRecord.swap, h1, h2, Vec3.neg_neg]

/-- C3 witness: for `recEx` (blade element first) the oriented force is the
record's force, and the swapped record orients to its negation. -/
theorem oriented_force_and_swap_sign_witness :
    classifyRecord gEx recEx =
      some (otherElement gEx recEx,
        if recEx.element1 ∈ gEx.cutting_body_ids then recEx.force
        else recEx.force.neg) ∧
    (∀ o f, classifyRecord gEx recEx = some (o, f) →
      classifyRecord gEx recEx.swap = some (o, f.neg)) :=
  oriented_force_and_swap_sign gEx recEx (by decide)

/-! ### C4: blade-frame transformation of force and point -/

/-- C4: for a qualifying contact, the reported force is the oriented
world-frame force rotated by the transform's rotation block, and the
reported point is the world-frame application point rotated by that block
and translated by the transform's translation column. -/
theorem event_in_blade_frame (g : CuttingGuard)
    (rel : List ℚ → RigidTransform) (x : List ℚ) (r : ContactRecord)
    (cbi : Nat) (cf : Vec3) (b : Nat)
    (hc : classifyRecord g r = some (cbi, cf))
    (hz : cbi ≠ 0)
    (hreg : g.collision_id_to_body_index_map cbi = some b) :
    processRecord g rel x r =
      .ok (some ⟨b, (rel (x.take g.num_positions)).rot.mulVec cf,
        ((rel (x.take g.num_positions)).rot.mulVec r.point).add
          (rel (x.take g.num_positions)).trans⟩) := by
  simp [processRecord, hc, hz, hreg]

/-- C4 witness: the specification's scenario.  Blade element 10 against
block element 20, force `[0,0,-50]` at `[0.1, 0, 0.75]`, transform the
identity rotation translated by `[0,0,-0.75]`: the event is struck body 1,
blade-local force `[0,0,-50]`, blade-local point `[0.1, 0, 0]`. -/
theorem event_in_blade_frame_witness :
    processRecord gEx relEx xEx recEx = .ok (some evEx) := by
  have h := event_in_blade_frame gEx relEx xEx recEx 20 ⟨0, 0, -50⟩ 1
    (by decide) (by decide) (by decide)
  rw [h]
  norm_num [relEx, tfEx, Mat3.id, Mat3.mulVec, Vec3.add, recEx, evEx]

/-! ### C5: non-blade contacts are ignored -/

/-- C5: a tick whose records never touch the blade emits no event. -/
theorem non_blade_contacts_ignored (g : CuttingGuard)
    (rel : List ℚ → RigidTransform) (x : List ℚ)
    (records : List ContactRecord)
    (h : ∀ r ∈ records, r.element1 ∉ g.cutting_body_ids ∧
      r.element2 ∉ g.cutting_body_ids) :
    processTick g rel x records = .ok [] := by
  induction records with
  | nil => rfl
  | cons r rest ih =>
    have hr := h r (List.mem_cons_self r rest)
    have hrec : processRecord g rel x r = .ok none := by
      simp [processRecord, classifyRecord, hr.1, hr.2]
    have hrest : processTick g rel x rest = .ok [] :=
      ih fun s hs => h s (List.mem_cons_of_mem r hs)
    simp only [processTick, processRecords, hrec]
    exact hrest

/-- C5 witness: two contacts between non-blade elements produce an empty
tick. -/
theorem non_blade_contacts_ignored_witness :
    processTick gEx relEx xEx
      [⟨20, 21, ⟨1, 0, 0⟩, ⟨0, 0, 0⟩⟩, ⟨22, 20, ⟨0, 1, 0⟩, ⟨0, 0, 0⟩⟩] =
      .ok [] :=
  non_blade_contacts_ignored gEx relEx xEx _ (by decide)

/-! ### C9: the truthiness guard drops struck element id 0 -/

/-- C9: a record with exactly one blade element whose other element has
id 0 fails Python's `if cut_body_index:` test and is silently dropped —
no event and no error, even though it is a valid blade contact. -/
theorem zero_struck_element_silently_dropped (g : CuttingGuard)
    (rel : List ℚ → RigidTransform) (x : List ℚ) (r : ContactRecord)
    (hx : oneBladeElement g r)
    (hz : otherElement g r = 0) :
    processRecord g rel x r = .ok none ∧
    processTick g rel x [r] = .ok [] := by
  have hrec : processRecord g rel x r = .ok none := by
    rcases hx with ⟨h1, h2⟩ | ⟨h2, h1⟩
    · unfold otherElement at hz
      rw [if_pos h1] at hz
      simp [processRecord, classifyRecord, h1, hz]
    · unfold otherElement at hz
      rw [if_neg h1] at hz
      rw [hz] at h1
      simp [processRecord, classifyRecord, h1, h2, hz]
  exact ⟨hrec, by simp only [processTick, processRecords, hrec]⟩

/-- C9 witness: blade element 10 against element 0 is dropped. -/
theorem zero_struck_element_silently_dropped_witness :
    processRecord gEx relEx xEx ⟨10, 0, ⟨0, 0, -50⟩, ⟨0, 0, 0⟩⟩ = .ok none ∧
    processTick gEx relEx xEx [⟨10, 0, ⟨0, 0, -50⟩, ⟨0, 0, 0⟩⟩] = .ok [] :=
  zero_struck_element_silently_dropped gEx relEx xEx _ (by decide) (by decide)

/-! ### C7: an unresolvable struck element aborts the tick -/

/-- C7 amended: if any record of the tick has exactly one blade element
and a nonzero struck element that is absent from the registry, the whole
tick fails with an `UnknownElement` error returned to the caller; the
failure is never swallowed.  (A struck element id of 0 is instead dropped
by the truthiness guard before resolution, see the counterexample.) -/
theorem unknown_element_aborts_tick (g : CuttingGuard)
    (rel : List ℚ → RigidTransform) (x : List ℚ)
    (records : List ContactRecord) (r : ContactRecord)
    (hmem : r ∈ records)
    (hx : oneBladeElement g r)
    (hz : otherElement g r ≠ 0)
    (hreg : g.collision_id_to_body_index_map (otherElement g r) = none) :
    ∃ eid, processTick g rel x records = .error (.UnknownElement eid) := by
  have hfail : processRecord g rel x r =
      .error (.UnknownElement (otherElement g r)) := by
    rcases hx with ⟨h1, h2⟩ | ⟨h2, h1⟩
    · unfold otherElement at hz hreg ⊢
      rw [if_pos h1] at hz hreg ⊢
      simp [processRecord, classifyRecord, h1, hz, hreg]
    · unfold otherElement at hz hreg ⊢
      rw [if_neg h1] at hz hreg ⊢
      simp [processRecord, classifyRecord, h1, h2, hz, hreg]
  clear hx hz hreg
  induction records with
  | nil => cases hmem
  | cons a rest ih =>
    rcases List.mem_cons.mp hmem with rfl | hmem'
    · exact ⟨otherElement g r, by simp [processTick, processRecords, hfail]⟩
    · obtain ⟨eid, heid⟩ := ih hmem'
      simp only [processTick] at heid ⊢
      cases hpa : processRecord g rel x a with
      | error e =>
        cases e with
        | UnknownElement n =>
          exact ⟨n, by simp [processRecords, hpa]⟩
      | ok o =>
        cases o with
        | none => exact ⟨eid, by simp [processRecords, hpa, heid]⟩
        | some ev => exact ⟨eid, by simp [processRecords, hpa, heid]⟩

/-- C7 counterexample: element id 0 is absent from the registry of `gEx`,
and a record pairing blade element 10 with element 0 has exactly one blade
element; yet the tick succeeds with no event — the truthiness guard drops
the record before the registry is consulted, so the absence is not fatal. -/
theorem unknown_element_zero_not_fatal :
    (oneBladeElement gEx ⟨10, 0, ⟨1, 0, 0⟩, ⟨0, 0, 0⟩⟩ ∧
     gEx.collision_id_to_body_index_map 0 = none) ∧
    processTick gEx relEx xEx [⟨10, 0, ⟨1, 0, 0⟩, ⟨0, 0, 0⟩⟩] = .ok [] :=
  ⟨⟨by decide, by decide⟩, by decide⟩

/-- C7 witness: element 999 is unknown to the registry, so a tick holding
that record (after a benign one) fails. -/
theorem unknown_element_aborts_tick_witness :
    ∃ eid, processTick gEx relEx xEx
      [⟨10, 20, ⟨1, 0, 0⟩, ⟨0, 0, 0⟩⟩, ⟨10, 999, ⟨1, 0, 0⟩, ⟨0, 0, 0⟩⟩] =
      .error (.UnknownElement eid) :=
  unknown_element_aborts_tick gEx relEx xEx _
    ⟨10, 999, ⟨1, 0, 0⟩, ⟨0, 0, 0⟩⟩
    (by decide) (by decide) (by decide) (by decide)

/-! ### C10: only the position slice of the state matters -/

/-- C10: two state vectors agreeing on the first `num_positions` entries
produce identical output for the same records, whatever their velocity
entries. -/
theorem events_depend_only_on_positions (g : CuttingGuard)
    (rel : List ℚ → RigidTransform) (x1 x2 : List ℚ)
    (records : List ContactRecord)
    (h : x1.take g.num_positions = x2.take g.num_positions) :
    processTick g rel x1 records = processTick g rel x2 records := by
  have hrec : ∀ r, processRecord g rel x1 r = processRecord g rel x2 r := by
    intro r
    unfold processRecord
    rw [h]
  induction records with
  | nil => rfl
  | cons r rest ih =>
    simp only [processTick, processRecords] at ih ⊢
    simp only [hrec r, ih]

/-- C10 witness: zero velocities and unit velocities give the same tick
output for the scenario record. -/
theorem events_depend_only_on_positions_witness :
    processTick gEx relEx (List.replicate 7 0 ++ List.replicate 7 0) [recEx] =
    processTick gEx relEx (List.replicate 7 0 ++ List.replicate 7 1) [recEx] :=
  events_depend_only_on_positions gEx relEx _ _ [recEx] (by decide)

/-! ### C6: unfiltered pass-through reporting -/

/-- The threshold and direction fields do not influence one record's
processing. -/
theorem processRecord_config_indep (g : CuttingGuard)
    (rel : List ℚ → RigidTransform) (x : List ℚ) (r : ContactRecord)
    (q : ℚ) (d : Vec3) :
    processRecord { g with min_cut_force := q, cut_direction := d } rel x r =
    processRecord g rel x r := by
  cases g
  rfl

/-- C6: the threshold and cut-direction configuration are stored at
construction, yet the tick output is invariant under changing them — no
force filter is applied — and two qualifying contacts each yield their own
event with no deduplication, even against the same struck body. -/
theorem unfiltered_pass_through_reporting :
    (∀ rbt cbi bsp bstp cd mcf bw,
      (mkCuttingGuard rbt cbi bsp bstp cd mcf bw).min_cut_force = mcf ∧
      (mkCuttingGuard rbt cbi bsp bstp cd mcf bw).cut_direction = cd) ∧
    (∀ (g : CuttingGuard) (rel : List ℚ → RigidTransform) (x : List ℚ)
        (records : List ContactRecord) (q : ℚ) (d : Vec3),
      processTick { g with min_cut_force := q, cut_direction := d }
        rel x records = processTick g rel x records) ∧
    (∀ (g : CuttingGuard) (rel : List ℚ → RigidTransform) (x : List ℚ)
        (r1 r2 : ContactRecord) (e1 e2 : CutEvent),
      processRecord g rel x r1 = .ok (some e1) →
      processRecord g rel x r2 = .ok (some e2) →
      processTick g rel x [r1, r2] = .ok [e1, e2]) := by
  refine ⟨fun _ _ _ _ _ _ _ => ⟨rfl, rfl⟩, ?_, ?_⟩
  · intro g rel x records q d
    induction records with
    | nil => rfl
    | cons r rest ih =>
      simp only [processTick, processRecords] at ih ⊢
      simp only [processRecord_config_indep, ih]
  · intro g rel x r1 r2 e1 e2 h1 h2
    simp [processTick, processRecords, h1, h2]

/-- C6 witness: two contacts with the same struck body (element 20) pass
through unfiltered and undeduplicated, under a nonzero force threshold. -/
theorem unfiltered_pass_through_reporting_witness :
    processTick gEx relEx xEx
      [recEx, ⟨10, 20, ⟨0, 0, -10⟩, ⟨0, 0, 3/4⟩⟩] =
      .ok [evEx, ⟨1, ⟨0, 0, -10⟩, ⟨0, 0, 0⟩⟩] := by
  refine unfiltered_pass_through_reporting.2.2 gEx relEx xEx
    recEx ⟨10, 20, ⟨0, 0, -10⟩, ⟨0, 0, 3/4⟩⟩ evEx ⟨1, ⟨0, 0, -10⟩, ⟨0, 0, 0⟩⟩
    ?_ ?_ <;>
  norm_num [processRecord, classifyRecord, gEx, mkCuttingGuard, rbtEx,
    buildCollisionIdMap, dictInsert, relEx, tfEx, Mat3.id, Mat3.mulVec,
    Vec3.add, recEx, evEx, xEx, List.range_succ]

/-! ### C8: no mutation, stateless across ticks -/

/-- C8: the publish callback leaves every field of the detector unchanged,
and a call after any earlier call returns exactly what it returns on the
original detector: ticks are independent. -/
theorem detector_is_stateless :
    (∀ (g : CuttingGuard) (rel : List ℚ → RigidTransform) (x : List ℚ)
        (records : List ContactRecord), (DoPublish g rel x records).2 = g) ∧
    (∀ (g : CuttingGuard) (rel : List ℚ → RigidTransform)
        (x1 : List ℚ) (records1 : List ContactRecord)
        (x2 : List ℚ) (records2 : List ContactRecord),
      DoPublish (DoPublish g rel x1 records1).2 rel x2 records2 =
      DoPublish g rel x2 records2) :=
  ⟨fun _ _ _ _ => rfl, fun _ _ _ _ _ _ => rfl⟩

end CuttingUtils
